import Mathlib

/-!
# newwrapper/main.cc : the `testEncrypt` / `testDecrypt` entry points

A shallow embedding of `src/newwrapper/main.cc`.

* C pointers are `Option`s: `none` is `nullptr`, `some v` is a valid pointer to `v`.
  The output argument `char** ciphertext` is an `Option (Option (List Nat))`:
  the outer option is the pointer handed to the function, the inner one is
  `*ciphertext`, and the list is the memory starting at `*ciphertext`.
* `int` is a 32 bit two's complement integer, `size_t` a 64 bit unsigned one; the
  conversions between them are `castInt` and `castSizeT`.
* `KeyAgent` (declared in a header that is not part of the file) is a pair of
  functions from requests to responses; every remote call is recorded in a trace.
-/

namespace NewWrapper

/-! ## Machine integers -/

/-- Conversion of an integer value to `int` (32 bit, two's complement). -/
def castInt (n : Int) : Int := (n + 2147483648) % 4294967296 - 2147483648

/-- Conversion of an `int` to `size_t` (64 bit, unsigned), as done by the usual
arithmetic conversions when an `int` meets a `size_t`. -/
def castSizeT (i : Int) : Nat := (i % 18446744073709551616).toNat

/-- The values an `int` object can hold. -/
def IsInt (i : Int) : Prop := -2147483648 ≤ i ∧ i ≤ 2147483647

instance (i : Int) : Decidable (IsInt i) := by
  unfold IsInt; exact inferInstance

/-- The constant `E_FAIL`, defined as `((int)0x80004005)`. -/
def E_FAIL : Int := castInt 0x80004005

/-- The constant `E_INVALID_ARG`, defined as `((int)0x80070057)`. -/
def E_INVALID_ARG : Int := castInt 0x80070057

/-- The constant `SUCCESS`, defined as `0`. -/
def SUCCESS : Int := 0

/-! ## Protocol messages (the fields `main.cc` reads or writes) -/

/-- The operation type of `::moc::cloudagent::common`; the file uses `Key_Encrypt`. -/
inductive KeyOperation where
  | Key_Encrypt
  | Key_Decrypt
  deriving DecidableEq, Repr

/-- The enumeration `::moc::Algorithm`; the file uses `A256CBC`. -/
inductive Algorithm where
  | A_UNKNOWN
  | A256CBC
  deriving DecidableEq, Repr

/-- The message `::moc::cloudagent::security::Key`; a default-constructed message has empty
strings in every field. -/
structure Key where
  name : String := ""
  vaultname : String := ""
  groupname : String := ""
  deriving DecidableEq, Repr

/-- The message `::moc::cloudagent::security::KeyRequest`. -/
structure KeyRequest where
  keys : List Key := []
  operationtype : Option KeyOperation := none
  deriving DecidableEq, Repr

/-- The message `::moc::cloudagent::security::KeyResponse`. -/
structure KeyResponse where
  keys : List Key := []
  error : String := ""
  deriving DecidableEq, Repr

/-- The message `::moc::cloudagent::security::KeyOperationRequest`. -/
structure KeyOperationRequest where
  algorithm : Option Algorithm := none
  data : List Nat := []
  Key : List Key := []
  deriving DecidableEq, Repr

/-- The message `::moc::cloudagent::security::KeyOperationResponse`. -/
structure KeyOperationResponse where
  data : List Nat := []
  error : String := ""
  deriving DecidableEq, Repr

/-- The class `KeyAgent`: the remote agent, reached through `Invoke` (key lookup) and
`Operate` (the cryptographic operation). Each fills a response for a request. -/
structure KeyAgent where
  Invoke : KeyRequest → KeyResponse
  Operate : KeyOperationRequest → KeyOperationResponse

/-- One remote call, with the request it was handed. -/
inductive Call where
  | Invoke (req : KeyRequest)
  | Operate (req : KeyOperationRequest)
  deriving DecidableEq, Repr

/-! ## `memcpy_s` -/

/-- The C runtime's `memcpy_s(dest, destSize, src, count)`, with a non-null `src`:
returns the error number and the memory at `dest` afterwards.
`count = 0` does nothing and returns 0; a null `dest` is an error (`EINVAL` = 22);
`destSize < count` is an error (`ERANGE` = 34) and zeroes the `destSize` bytes of
the destination; otherwise `count` bytes of `src` are copied to `dest`. The error
returns are those of a call that comes back to its caller, which is what the test
`0 != memcpy_s(...)` of line 132 reads; a runtime whose invalid-parameter handler ends
the process instead has no return value to model. -/
def memcpy_s (dest : Option (List Nat)) (destSize : Nat) (src : List Nat) (count : Nat) :
    Int × Option (List Nat) :=
  if count = 0 then (0, dest)
  else match dest with
    | none => (22, none)
    | some mem =>
      if destSize < count then (34, some (List.replicate destSize 0 ++ mem.drop destSize))
      else (0, some (src.take count ++ mem.drop count))

/-! ## The entry points -/

/-- The arguments of `testEncrypt`. -/
structure Args where
  serverName : Option String
  groupName : Option String
  keyvaultName : Option String
  keyName : Option String
  plaintext : Option (List Nat)
  plaintextSize : Nat
  cv : Option String
  timeout : Int
  ciphertext : Option (Option (List Nat))
  ciphertextSize : Option Int
  deriving DecidableEq, Repr

/-- What a call leaves behind: the returned value (`none` when the function
returns without a value), the two output objects, and the remote calls made, in
order. -/
structure Outcome where
  status : Option Int
  ciphertext : Option (Option (List Nat))
  ciphertextSize : Option Int
  calls : List Call
  deriving DecidableEq, Repr

/-- The guard of lines 30-38. -/
def invalidArgs (a : Args) : Bool :=
  a.serverName.isNone
    || a.groupName.isNone
    || a.keyvaultName.isNone
    || a.keyName.isNone
    || a.plaintext.isNone
    || a.plaintextSize == 0
    || a.cv.isNone
    || a.ciphertext.isNone
    || a.ciphertextSize.isNone

/-- Lines 64-70: the `Key` built from the caller's arguments. -/
def keyinfo (a : Args) : Key :=
  { name := a.keyName.getD "", vaultname := a.keyvaultName.getD "",
    groupname := a.groupName.getD "" }

/-- Lines 82-84: `keyRequest`. `add_keys()` appends a default-constructed `Key`;
`keyinfo` is not attached to the request. -/
def keyRequest : KeyRequest :=
  let keyRequest : KeyRequest := {}
  let keyRequest := { keyRequest with keys := keyRequest.keys ++ [({} : Key)] }
  { keyRequest with operationtype := some KeyOperation.Key_Encrypt }

/-- Lines 106-109: `request`, from the plaintext and the key-lookup response. Line 108
reads `plaintextSize` bytes from `input`, a name the file does not declare; the bytes
handed to the function are those at `plaintext`. -/
def request (a : Args) (keyResponse : KeyResponse) : KeyOperationRequest :=
  let request : KeyOperationRequest := {}
  let request := { request with algorithm := some Algorithm.A256CBC }
  let request := { request with data := (a.plaintext.getD []).take a.plaintextSize }
  { request with Key := keyResponse.keys }

/-- The function `testEncrypt`, lines 28-145. -/
def testEncrypt (agent : KeyAgent) (a : Args) : Outcome :=
  if invalidArgs a then
    { status := some E_INVALID_ARG, ciphertext := a.ciphertext,
      ciphertextSize := a.ciphertextSize, calls := [] }
  else
    let _keyinfo := keyinfo a
    let keyResponse := agent.Invoke keyRequest
    let errstring := keyResponse.error
    if errstring.length > 0 then
      { status := some E_FAIL, ciphertext := a.ciphertext,
        ciphertextSize := a.ciphertextSize, calls := [Call.Invoke keyRequest] }
    else
      let req := request a keyResponse
      let response := agent.Operate req
      let calls := [Call.Invoke keyRequest, Call.Operate req]
      let errstring := response.error
      if errstring.length > 0 then
        { status := some E_FAIL, ciphertext := a.ciphertext,
          ciphertextSize := a.ciphertextSize, calls := calls }
      else
        let responseSize : Nat := response.data.length
        let capacity : Int := a.ciphertextSize.getD 0
        let dest : Option (List Nat) := a.ciphertext.getD none
        if castSizeT capacity ≥ responseSize then
          let newSize : Int := castInt responseSize
          let r := memcpy_s dest (castSizeT newSize) response.data responseSize
          if 0 ≠ r.1 then
            { status := some E_FAIL, ciphertext := some r.2,
              ciphertextSize := some newSize, calls := calls }
          else
            { status := some SUCCESS, ciphertext := some r.2,
              ciphertextSize := some newSize, calls := calls }
        else
          { status := none, ciphertext := a.ciphertext,
            ciphertextSize := some (castInt responseSize), calls := calls }

/-- The arguments of `testDecrypt`. -/
structure DecryptArgs where
  serverName : Option String
  groupName : Option String
  keyvaultName : Option String
  keyName : Option String
  ciphertext : Option (List Nat)
  ciphertextSize : Nat
  cv : Option String
  timeout : Int
  plaintext : Option (Option (List Nat))
  plaintextSize : Option Int
  deriving DecidableEq, Repr

/-- The function `testDecrypt`, lines 147-150: the body is empty. No value is returned, no
remote call is made and the output objects are left as they were. -/
def testDecrypt (_agent : KeyAgent) (a : DecryptArgs) : Outcome :=
  { status := none, ciphertext := a.plaintext, ciphertextSize := a.plaintextSize, calls := [] }

/-- The `testEncrypt` arguments that correspond to `testDecrypt` arguments: the
input and output roles are exchanged. -/
def DecryptArgs.toEncrypt (a : DecryptArgs) : Args :=
  { serverName := a.serverName, groupName := a.groupName, keyvaultName := a.keyvaultName,
    keyName := a.keyName, plaintext := a.ciphertext, plaintextSize := a.ciphertextSize,
    cv := a.cv, timeout := a.timeout, ciphertext := a.plaintext,
    ciphertextSize := a.plaintextSize }

/-! ## Stub agents and sample calls -/

/-- A stub agent whose operate response carries `out` and that reports no error. -/
def stubAgent (out : List Nat) : KeyAgent :=
  { Invoke := fun _ => { keys := [{ name := "key1", vaultname := "vault1", groupname := "grp1" }] },
    Operate := fun _ => { data := out } }

/-- A stub agent whose key lookup fails with an error message. -/
def lookupErrorAgent : KeyAgent :=
  { Invoke := fun _ => { error := "key not found" },
    Operate := fun _ => { data := [1, 2, 3] } }

/-- A stub agent whose operate call fails with an error message. -/
def operateErrorAgent : KeyAgent :=
  { Invoke := fun _ => {},
    Operate := fun _ => { data := [1, 2, 3], error := "operation failed" } }

/-- A stub agent whose operate response carries 2^31 zero bytes and no error. -/
def hugeAgent : KeyAgent :=
  { Invoke := fun _ => {},
    Operate := fun _ => { data := List.replicate 2147483648 0 } }

/-- The eight bytes the stub returns in the sample calls. -/
def stubBytes : List Nat := [11, 12, 13, 14, 15, 16, 17, 18]

/-- The call `Encrypt("srv1","grp1","vault1","key1","hello",5,"cv-token",30,buf,&cap)`
with a buffer `buf` and `cap` in the size object. -/
def sampleArgs (buf : Option (List Nat)) (cap : Int) : Args :=
  { serverName := some "srv1", groupName := some "grp1", keyvaultName := some "vault1",
    keyName := some "key1", plaintext := some [104, 101, 108, 108, 111], plaintextSize := 5,
    cv := some "cv-token", timeout := 30, ciphertext := some buf, ciphertextSize := some cap }



/-- The call `Decrypt("srv1","grp1","vault1","key1",input,5,"cv-token",30,buf,&cap)`
with a buffer `buf` and `cap` in the size object. -/
def sampleDecryptArgs (buf : Option (List Nat)) (cap : Int) : DecryptArgs :=
  { serverName := some "srv1", groupName := some "grp1", keyvaultName := some "vault1",
    keyName := some "key1", ciphertext := some [21, 22, 23, 24, 25], ciphertextSize := 5,
    cv := some "cv-token", timeout := 30, plaintext := some buf, plaintextSize := some cap }

/-! ## Predicates used in the statements -/

/-- Some pointer argument is null, or the input length is zero. -/
def NullOrEmpty (a : Args) : Prop :=
  a.serverName = none ∨ a.groupName = none ∨ a.keyvaultName = none ∨ a.keyName = none
    ∨ a.plaintext = none ∨ a.cv = none ∨ a.ciphertext = none ∨ a.ciphertextSize = none
    ∨ a.plaintextSize = 0

/-- The bytes at the output buffer after a call (none when there is no buffer). -/
def Outcome.bytes (o : Outcome) : List Nat :=
  match o.ciphertext with
  | some (some mem) => mem
  | _ => []

/-- The response `testEncrypt` gets from `Operate` when the key lookup reports no error. -/
def operateResponse (agent : KeyAgent) (a : Args) : KeyOperationResponse :=
  agent.Operate (request a (agent.Invoke keyRequest))

/-- The test of line 129, on the operate response of the call: the incoming capacity,
converted to `size_t`, is at least the length of the response data. -/
def capacityCheck (agent : KeyAgent) (a : Args) : Prop :=
  castSizeT (a.ciphertextSize.getD 0) ≥ (operateResponse agent a).data.length

instance (agent : KeyAgent) (a : Args) : Decidable (capacityCheck agent a) := by
  unfold capacityCheck; exact inferInstance

/-- The value `memcpy_s` returns at line 132, on the operate response of the call. -/
def copyStatus (agent : KeyAgent) (a : Args) : Int :=
  (memcpy_s (a.ciphertext.getD none)
    (castSizeT (castInt ((operateResponse agent a).data.length : Int)))
    (operateResponse agent a).data (operateResponse agent a).data.length).1

/-- The number of `Invoke` calls in a trace. -/
def invokeCount (calls : List Call) : Nat :=
  (calls.filter fun c => match c with | Call.Invoke _ => true | _ => false).length

/-- The number of `Operate` calls in a trace. -/
def operateCount (calls : List Call) : Nat :=
  (calls.filter fun c => match c with | Call.Operate _ => true | _ => false).length

/-! ## Auxiliary facts -/

theorem invalidArgs_iff (a : Args) : invalidArgs a = true ↔ NullOrEmpty a := by
  unfold invalidArgs NullOrEmpty
  simp only [Bool.or_eq_true, Option.isNone_iff_eq_none, beq_iff_eq]
  tauto

theorem invalidArgs_false_of_valid {a : Args} (h : ¬ NullOrEmpty a) : invalidArgs a = false := by
  cases hi : invalidArgs a
  · rfl
  · exact absurd ((invalidArgs_iff a).1 hi) h

theorem length_pos_iff_ne_empty (s : String) : s.length > 0 ↔ s ≠ "" := by
  rcases s with ⟨l⟩
  cases l <;> simp [String.length, String.ext_iff]

theorem castInt_of_isInt {i : Int} (h : IsInt i) : castInt i = i := by
  unfold IsInt at h
  unfold castInt
  omega

theorem castSizeT_of_nonneg {i : Int} (h0 : 0 ≤ i) (h1 : i ≤ 2147483647) :
    castSizeT i = i.toNat := by
  unfold castSizeT
  congr 1
  omega

theorem castSizeT_castInt_length {n : Nat} (h : n ≤ 2147483647) :
    castSizeT (castInt (n : Int)) = n := by
  have h1 : castInt (n : Int) = n := castInt_of_isInt ⟨by omega, by omega⟩
  rw [h1, castSizeT_of_nonneg (by omega) (by omega)]
  simp

theorem memcpy_s_copied {dest : Option (List Nat)} {n : Nat} {src : List Nat}
    (h : (memcpy_s dest n src src.length).1 = 0) :
    (match (memcpy_s dest n src src.length).2 with
      | some mem => mem
      | none => []).take src.length = src := by
  unfold memcpy_s at h ⊢
  by_cases h0 : src.length = 0
  · have : src = [] := List.length_eq_zero.1 h0
    subst this
    simp
  · cases dest with
    | none => simp [h0] at h
    | some mem =>
      by_cases hlt : n < src.length
      · simp [h0, hlt] at h
      · simp [h0, hlt]

theorem E_INVALID_ARG_val : E_INVALID_ARG = -2147024809 := by decide

theorem E_FAIL_val : E_FAIL = -2147467259 := by decide

/-! ## Claims -/

/-- C1: when a pointer argument of `testEncrypt` is null or `plaintextSize` is 0, the
call returns `E_INVALID_ARG` (0x80070057 read as an `int`, which is not zero), makes no
remote call, and leaves the output buffer and the output size as they were. -/
theorem testEncrypt_invalid_argument (agent : KeyAgent) (a : Args) (h : NullOrEmpty a) :
    testEncrypt agent a =
        { status := some E_INVALID_ARG, ciphertext := a.ciphertext,
          ciphertextSize := a.ciphertextSize, calls := [] }
      ∧ E_INVALID_ARG = 0x80070057 - 2 ^ 32 ∧ E_INVALID_ARG ≠ 0 := by
  refine ⟨?_, by decide, by decide⟩
  have hi : invalidArgs a = true := (invalidArgs_iff a).2 h
  simp [testEncrypt, hi]

theorem testEncrypt_invalid_argument_witness :
    NullOrEmpty { sampleArgs (some [0, 0]) 2 with keyName := none }
      ∧ (testEncrypt (stubAgent stubBytes) { sampleArgs (some [0, 0]) 2 with keyName := none } =
          { status := some E_INVALID_ARG, ciphertext := some (some [0, 0]),
            ciphertextSize := some 2, calls := [] }
        ∧ E_INVALID_ARG = 0x80070057 - 2 ^ 32 ∧ E_INVALID_ARG ≠ 0) :=
  ⟨by simp [NullOrEmpty],
    testEncrypt_invalid_argument (stubAgent stubBytes)
      { sampleArgs (some [0, 0]) 2 with keyName := none } (by simp [NullOrEmpty])⟩

/-- C4: when the arguments of `testEncrypt` are valid and the key-lookup response or
the operate response carries a non-empty error message, the call returns the nonzero
status `E_FAIL`, and the output size and the output buffer are what they were before
the call. -/
theorem testEncrypt_remote_error (agent : KeyAgent) (a : Args) (h : ¬ NullOrEmpty a)
    (herr : (agent.Invoke keyRequest).error ≠ ""
      ∨ (agent.Operate (request a (agent.Invoke keyRequest))).error ≠ "") :
    (testEncrypt agent a).status = some E_FAIL ∧ E_FAIL ≠ 0
      ∧ (testEncrypt agent a).ciphertextSize = a.ciphertextSize
      ∧ (testEncrypt agent a).ciphertext = a.ciphertext := by
  have hi := invalidArgs_false_of_valid h
  have hne : E_FAIL ≠ 0 := by decide
  by_cases hk : (agent.Invoke keyRequest).error.length > 0
  · simp [testEncrypt, hi, hk, hne]
  · have hk2 : (agent.Invoke keyRequest).error = "" := by
      by_contra hc
      exact hk ((length_pos_iff_ne_empty _).2 hc)
    have ho : (agent.Operate (request a (agent.Invoke keyRequest))).error.length > 0 := by
      rcases herr with h1 | h2
      · exact absurd hk2 h1
      · exact (length_pos_iff_ne_empty _).2 h2
    simp [testEncrypt, hi, hk, ho, hne]

theorem testEncrypt_remote_error_witness :
    ¬ NullOrEmpty (sampleArgs (some [0, 0, 0]) 3)
      ∧ (testEncrypt operateErrorAgent (sampleArgs (some [0, 0, 0]) 3)).status = some E_FAIL
      ∧ E_FAIL ≠ 0
      ∧ (testEncrypt operateErrorAgent (sampleArgs (some [0, 0, 0]) 3)).ciphertextSize = some 3
      ∧ (testEncrypt operateErrorAgent (sampleArgs (some [0, 0, 0]) 3)).ciphertext
          = some (some [0, 0, 0]) :=
  ⟨by simp [NullOrEmpty, sampleArgs],
    testEncrypt_remote_error operateErrorAgent (sampleArgs (some [0, 0, 0]) 3)
      (by simp [NullOrEmpty, sampleArgs]) (Or.inr (by decide))⟩

/-- C10: in every call of `testEncrypt`, `Invoke` is called at most once and `Operate`
at most once, an `Operate` call is preceded by an `Invoke` call, and when the key-lookup
response carries a non-empty error message `Operate` is not called and the returned
status is a nonzero failure code. -/
theorem testEncrypt_remote_calls (agent : KeyAgent) (a : Args) :
    invokeCount (testEncrypt agent a).calls ≤ 1
      ∧ operateCount (testEncrypt agent a).calls ≤ 1
      ∧ (∀ pre req post, (testEncrypt agent a).calls = pre ++ Call.Operate req :: post →
          ∃ q, Call.Invoke q ∈ pre)
      ∧ ((agent.Invoke keyRequest).error ≠ "" →
          operateCount (testEncrypt agent a).calls = 0
            ∧ ∃ st, (testEncrypt agent a).status = some st ∧ st ≠ 0) := by
  have hshape : (testEncrypt agent a).calls = []
      ∨ (testEncrypt agent a).calls = [Call.Invoke keyRequest]
      ∨ (testEncrypt agent a).calls
          = [Call.Invoke keyRequest, Call.Operate (request a (agent.Invoke keyRequest))] := by
    unfold testEncrypt
    simp only []
    split_ifs <;> simp
  have hfail : (agent.Invoke keyRequest).error ≠ "" →
      operateCount (testEncrypt agent a).calls = 0
        ∧ ∃ st, (testEncrypt agent a).status = some st ∧ st ≠ 0 := by
    intro hk
    have hk1 := (length_pos_iff_ne_empty _).2 hk
    cases hi : invalidArgs a
    · refine ⟨by simp [testEncrypt, hi, hk1, operateCount], E_FAIL, ?_, by decide⟩
      simp [testEncrypt, hi, hk1]
    · refine ⟨by simp [testEncrypt, hi, operateCount], E_INVALID_ARG, ?_, by decide⟩
      simp [testEncrypt, hi]
  refine ⟨?_, ?_, ?_, hfail⟩
  · rcases hshape with h | h | h <;> simp [h, invokeCount]
  · rcases hshape with h | h | h <;> simp [h, operateCount]
  · intro pre req post hc
    rcases hshape with h | h | h
    · rw [h] at hc
      simp at hc
    · rw [h] at hc
      rcases pre with _ | ⟨c, pre⟩
      · simp at hc
      · simp at hc
    · rw [h] at hc
      rcases pre with _ | ⟨c, pre⟩
      · simp at hc
      · simp only [List.cons_append, List.cons.injEq] at hc
        exact ⟨keyRequest, by rw [← hc.1]; simp⟩

theorem testEncrypt_remote_calls_witness :
    (lookupErrorAgent.Invoke keyRequest).error ≠ ""
      ∧ operateCount (testEncrypt lookupErrorAgent (sampleArgs (some [0]) 1)).calls = 0
      ∧ ∃ st, (testEncrypt lookupErrorAgent (sampleArgs (some [0]) 1)).status = some st
          ∧ st ≠ 0 :=
  ⟨by decide,
    (testEncrypt_remote_calls lookupErrorAgent (sampleArgs (some [0]) 1)).2.2.2 (by decide)⟩

/-- C2: when the arguments of `testEncrypt` are valid, both remote responses carry an
empty error message, the copy succeeds and the incoming capacity is at least the length
of the operate response's data, the call returns 0, sets the output size to that length
and the first that-many bytes of the output buffer are the response data. -/
theorem testEncrypt_success (agent : KeyAgent) (a : Args) (dest : Option (List Nat))
    (cap : Int) (h : ¬ NullOrEmpty a)
    (hdest : a.ciphertext = some dest) (hcap : a.ciphertextSize = some cap) (hint : IsInt cap)
    (hk : (agent.Invoke keyRequest).error = "") (ho : (operateResponse agent a).error = "")
    (hcopy : (memcpy_s dest (castSizeT (castInt (operateResponse agent a).data.length))
      (operateResponse agent a).data (operateResponse agent a).data.length).1 = 0)
    (hfit : ((operateResponse agent a).data.length : Int) ≤ cap) :
    (testEncrypt agent a).status = some 0
      ∧ (testEncrypt agent a).ciphertextSize = some ((operateResponse agent a).data.length : Int)
      ∧ (testEncrypt agent a).bytes.take (operateResponse agent a).data.length
          = (operateResponse agent a).data := by
  have hi := invalidArgs_false_of_valid h
  unfold operateResponse at ho hcopy hfit ⊢
  generalize hr : agent.Operate (request a (agent.Invoke keyRequest)) = resp at ho hcopy hfit ⊢
  have hlen : resp.data.length ≤ 2147483647 := by
    have := hint.2
    omega
  have hci : castInt (resp.data.length : Int) = resp.data.length :=
    castInt_of_isInt ⟨by omega, by omega⟩
  have hcs : castSizeT cap ≥ resp.data.length := by
    rw [castSizeT_of_nonneg (by omega) hint.2]
    omega
  have hcc := castSizeT_castInt_length hlen
  rw [hcc] at hcopy
  have hcn : castSizeT (resp.data.length : Int) = resp.data.length := by
    rw [← hci]
    exact hcc
  have hbytes := memcpy_s_copied hcopy
  have hout : testEncrypt agent a =
      { status := some SUCCESS,
        ciphertext := some (memcpy_s dest resp.data.length resp.data resp.data.length).2,
        ciphertextSize := some (resp.data.length : Int),
        calls := [Call.Invoke keyRequest, Call.Operate (request a (agent.Invoke keyRequest))] } := by
    simp [testEncrypt, hi, hk, hr, ho, hdest, hcap, hcs, hci, hcn, hcopy]
  rw [hout]
  refine ⟨rfl, rfl, ?_⟩
  simp only [Outcome.bytes]
  cases hm : (memcpy_s dest resp.data.length resp.data resp.data.length).2 with
  | none => simpa [hm] using hbytes
  | some mem => simpa [hm] using hbytes

theorem testEncrypt_success_witness :
    (testEncrypt (stubAgent stubBytes) (sampleArgs (some [0, 0, 0, 0, 0, 0, 0, 0]) 8)).status
        = some 0
      ∧ (testEncrypt (stubAgent stubBytes) (sampleArgs (some [0, 0, 0, 0, 0, 0, 0, 0]) 8)).ciphertextSize
        = some 8
      ∧ (testEncrypt (stubAgent stubBytes) (sampleArgs (some [0, 0, 0, 0, 0, 0, 0, 0]) 8)).bytes.take 8
        = stubBytes :=
  testEncrypt_success (stubAgent stubBytes) (sampleArgs (some [0, 0, 0, 0, 0, 0, 0, 0]) 8)
    (some [0, 0, 0, 0, 0, 0, 0, 0]) 8 (by simp [NullOrEmpty, sampleArgs]) rfl rfl (by decide)
    (by decide) (by decide) (by decide) (by decide)

/-- C3, as stated, fails: with valid arguments, error-free responses, incoming capacity 0
and an operate response of 2^31 bytes, the size object does not receive the response
length (it receives that length converted to an int, which is -2^31). -/
theorem testEncrypt_required_size_wraps :
    ¬ NullOrEmpty (sampleArgs (some []) 0)
      ∧ (hugeAgent.Invoke keyRequest).error = ""
      ∧ (operateResponse hugeAgent (sampleArgs (some []) 0)).error = ""
      ∧ (0 : Int) ≤ 0
      ∧ (0 : Int) < ((operateResponse hugeAgent (sampleArgs (some []) 0)).data.length : Int)
      ∧ (testEncrypt hugeAgent (sampleArgs (some []) 0)).ciphertextSize
          ≠ some ((operateResponse hugeAgent (sampleArgs (some []) 0)).data.length : Int)
      ∧ (testEncrypt hugeAgent (sampleArgs (some []) 0)).ciphertextSize
          = some (-2147483648) := by
  have hlen : (operateResponse hugeAgent (sampleArgs (some []) 0)).data.length = 2147483648 := by
    simp only [operateResponse, hugeAgent, List.length_replicate]
  have hsz : (testEncrypt hugeAgent (sampleArgs (some []) 0)).ciphertextSize
      = some (-2147483648) := by
    have hi : invalidArgs (sampleArgs (some []) 0) = false := by decide
    have hc : ¬ (castSizeT 0 ≥ 2147483648) := by decide
    have hv : castInt ((2147483648 : Nat) : Int) = -2147483648 := by decide
    have he : ¬ (("" : String).length > 0) := by decide
    have hs : (sampleArgs (some []) 0).ciphertextSize = some 0 := rfl
    simp only [testEncrypt, hi, hugeAgent, hs, List.length_replicate, hc, hv, he,
      Option.getD_some, if_false, Bool.false_eq_true]
  refine ⟨by simp [NullOrEmpty, sampleArgs], by decide, ?_, le_refl _, ?_, ?_, hsz⟩
  · simp only [operateResponse, hugeAgent]
  · rw [hlen]
    decide
  · rw [hsz, hlen]
    decide

/-- C3, amended: when the arguments of `testEncrypt` are valid, both remote responses
carry an empty error message, the length of the operate response's data is at most
2^31 - 1 (it fits an `int`), and the incoming capacity is non-negative and smaller than
that length, the output buffer is left as it was and the output size is set to that
length. -/
theorem testEncrypt_buffer_too_small (agent : KeyAgent) (a : Args) (cap : Int)
    (h : ¬ NullOrEmpty a) (hcap : a.ciphertextSize = some cap)
    (hk : (agent.Invoke keyRequest).error = "") (ho : (operateResponse agent a).error = "")
    (hlen : (operateResponse agent a).data.length ≤ 2147483647)
    (h0 : 0 ≤ cap) (hlt : cap < ((operateResponse agent a).data.length : Int)) :
    (testEncrypt agent a).ciphertext = a.ciphertext
      ∧ (testEncrypt agent a).ciphertextSize
          = some ((operateResponse agent a).data.length : Int) := by
  have hi := invalidArgs_false_of_valid h
  unfold operateResponse at ho hlen hlt ⊢
  generalize hr : agent.Operate (request a (agent.Invoke keyRequest)) = resp at ho hlen hlt ⊢
  have hci : castInt (resp.data.length : Int) = resp.data.length :=
    castInt_of_isInt ⟨by omega, by omega⟩
  have hcs : ¬ (castSizeT cap ≥ resp.data.length) := by
    rw [castSizeT_of_nonneg h0 (by omega)]
    omega
  simp [testEncrypt, hi, hk, hr, ho, hcap, hcs, hci]

theorem testEncrypt_buffer_too_small_witness :
    (testEncrypt (stubAgent stubBytes) (sampleArgs (some [0, 0, 0, 0]) 4)).ciphertext
        = some (some [0, 0, 0, 0])
      ∧ (testEncrypt (stubAgent stubBytes) (sampleArgs (some [0, 0, 0, 0]) 4)).ciphertextSize
        = some 8 :=
  testEncrypt_buffer_too_small (stubAgent stubBytes) (sampleArgs (some [0, 0, 0, 0]) 4) 4
    (by simp [NullOrEmpty, sampleArgs]) rfl (by decide) (by decide) (by decide) (by decide)
    (by decide)

/-- C5, at a failing input: with incoming capacity -1 and an operate response of 8 bytes
(so the capacity is less than the response length), `testEncrypt` takes the copy branch,
returns 0 and overwrites 8 bytes of the output buffer. -/
theorem testEncrypt_negative_capacity_writes :
    ((-1 : Int) < stubBytes.length)
      ∧ castSizeT (-1) = 18446744073709551615
      ∧ testEncrypt (stubAgent stubBytes) (sampleArgs (some [0, 0, 0, 0, 0, 0, 0, 0]) (-1))
        = { status := some 0, ciphertext := some (some [11, 12, 13, 14, 15, 16, 17, 18]),
            ciphertextSize := some 8,
            calls := [Call.Invoke keyRequest,
              Call.Operate (request (sampleArgs (some [0, 0, 0, 0, 0, 0, 0, 0]) (-1))
                ((stubAgent stubBytes).Invoke keyRequest))] } := by
  refine ⟨by decide, by decide, ?_⟩
  decide

/-- C6, at a failing input: in the call with key name "key1", vault "vault1" and group
"grp1", the request handed to `Invoke` holds a single key entry whose name, vault name
and group name are all empty; the key built from the arguments is not in it. -/
theorem testEncrypt_lookup_request_lacks_identity :
    (testEncrypt (stubAgent stubBytes) (sampleArgs (some [0, 0, 0, 0, 0, 0, 0, 0]) 8)).calls.head?
        = some (Call.Invoke
            { keys := [{ name := "", vaultname := "", groupname := "" }],
              operationtype := some KeyOperation.Key_Encrypt })
      ∧ keyinfo (sampleArgs (some [0, 0, 0, 0, 0, 0, 0, 0]) 8)
        = { name := "key1", vaultname := "vault1", groupname := "grp1" }
      ∧ keyinfo (sampleArgs (some [0, 0, 0, 0, 0, 0, 0, 0]) 8) ∉ keyRequest.keys := by
  refine ⟨by decide, by decide, by decide⟩

/-- C7, as stated, fails: with an empty (non-null) server name and the other arguments
valid, `testEncrypt` does not return `E_INVALID_ARG` with no remote call; it makes both
remote calls and returns 0. -/
theorem testEncrypt_empty_server_name_accepted :
    ({ sampleArgs (some [0, 0, 0, 0, 0, 0, 0, 0]) 8 with serverName := some "" } : Args).serverName
        = some ""
      ∧ ¬ ((testEncrypt (stubAgent stubBytes)
              { sampleArgs (some [0, 0, 0, 0, 0, 0, 0, 0]) 8 with serverName := some "" }).status
            = some E_INVALID_ARG
          ∧ (testEncrypt (stubAgent stubBytes)
              { sampleArgs (some [0, 0, 0, 0, 0, 0, 0, 0]) 8 with serverName := some "" }).calls
            = [])
      ∧ (testEncrypt (stubAgent stubBytes)
            { sampleArgs (some [0, 0, 0, 0, 0, 0, 0, 0]) 8 with serverName := some "" }).status
          = some 0
      ∧ (testEncrypt (stubAgent stubBytes)
            { sampleArgs (some [0, 0, 0, 0, 0, 0, 0, 0]) 8 with serverName := some "" }).calls.length
          = 2 := by
  refine ⟨rfl, by decide, by decide, by decide⟩

/-- C7, amended: when one of the key-identity strings is null, `testEncrypt` returns
`E_INVALID_ARG` and makes no remote call; an identity string that is empty but not null
is not rejected: whenever no pointer argument is null and `plaintextSize` is not 0, the
first thing the call does is hand the key-lookup request to `Invoke`. -/
theorem testEncrypt_identity_validation (agent : KeyAgent) (a : Args) :
    ((a.serverName = none ∨ a.groupName = none ∨ a.keyvaultName = none ∨ a.keyName = none) →
        (testEncrypt agent a).status = some E_INVALID_ARG ∧ (testEncrypt agent a).calls = [])
      ∧ (¬ NullOrEmpty a →
          (testEncrypt agent a).calls.head? = some (Call.Invoke keyRequest)) := by
  constructor
  · intro h
    have hn : NullOrEmpty a := by
      unfold NullOrEmpty
      tauto
    have hi : invalidArgs a = true := (invalidArgs_iff a).2 hn
    simp [testEncrypt, hi]
  · intro h
    have hi := invalidArgs_false_of_valid h
    unfold testEncrypt
    simp only [hi, Bool.false_eq_true, if_false]
    split_ifs <;> rfl

theorem testEncrypt_identity_validation_witness :
    ((testEncrypt (stubAgent stubBytes)
          { sampleArgs (some [0]) 1 with groupName := none }).status = some E_INVALID_ARG
        ∧ (testEncrypt (stubAgent stubBytes)
          { sampleArgs (some [0]) 1 with groupName := none }).calls = [])
      ∧ (testEncrypt (stubAgent stubBytes)
          { sampleArgs (some [0]) 1 with groupName := some "" }).calls.head?
        = some (Call.Invoke keyRequest) :=
  ⟨(testEncrypt_identity_validation (stubAgent stubBytes)
      { sampleArgs (some [0]) 1 with groupName := none }).1 (Or.inr (Or.inl rfl)),
    (testEncrypt_identity_validation (stubAgent stubBytes)
      { sampleArgs (some [0]) 1 with groupName := some "" }).2 (by simp [NullOrEmpty, sampleArgs])⟩

/-- C8, at a failing input: with valid arguments, capacity 8 and a stub agent returning 8
bytes, `testDecrypt` returns no value, makes no remote call and leaves the buffer and the
size as they were, while `testEncrypt` on the corresponding arguments returns 0 and copies
the 8 bytes; and with a null key name `testDecrypt` does not return `E_INVALID_ARG`. -/
theorem testDecrypt_does_nothing :
    testDecrypt (stubAgent stubBytes) (sampleDecryptArgs (some [0, 0, 0, 0, 0, 0, 0, 0]) 8)
        = { status := none, ciphertext := some (some [0, 0, 0, 0, 0, 0, 0, 0]),
            ciphertextSize := some 8, calls := [] }
      ∧ (testEncrypt (stubAgent stubBytes)
          (sampleDecryptArgs (some [0, 0, 0, 0, 0, 0, 0, 0]) 8).toEncrypt).status = some 0
      ∧ (testEncrypt (stubAgent stubBytes)
          (sampleDecryptArgs (some [0, 0, 0, 0, 0, 0, 0, 0]) 8).toEncrypt).ciphertext
        = some (some [11, 12, 13, 14, 15, 16, 17, 18])
      ∧ (testDecrypt (stubAgent stubBytes)
          { sampleDecryptArgs (some [0, 0, 0, 0, 0, 0, 0, 0]) 8 with keyName := none }).status
        ≠ some E_INVALID_ARG := by
  refine ⟨by decide, by decide, by decide, by decide⟩

/-- C9, as stated, fails: a call whose copy fails (null `*ciphertext`, so `memcpy_s`
returns nonzero) and a call whose key lookup carries an error message return the same
status code, `E_FAIL`. -/
theorem testEncrypt_copy_failure_and_remote_error_share_code :
    (memcpy_s none 8 stubBytes 8).1 ≠ 0
      ∧ (lookupErrorAgent.Invoke keyRequest).error ≠ ""
      ∧ ¬ ((testEncrypt (stubAgent stubBytes) (sampleArgs none 8)).status
            ≠ (testEncrypt lookupErrorAgent (sampleArgs (some [0, 0, 0, 0, 0, 0, 0, 0]) 8)).status)
      ∧ (testEncrypt (stubAgent stubBytes) (sampleArgs none 8)).status = some E_FAIL
      ∧ (testEncrypt lookupErrorAgent (sampleArgs (some [0, 0, 0, 0, 0, 0, 0, 0]) 8)).status
          = some E_FAIL := by
  refine ⟨by decide, by decide, by decide, by decide, by decide⟩

/-- C9, amended: `testEncrypt` reports a null or empty argument with `E_INVALID_ARG`,
and reports a remote error response (key lookup or operate) and a failed copy (the test
of line 129 passed and `memcpy_s` returned nonzero) both with the one generic code
`E_FAIL`; `E_INVALID_ARG` and `E_FAIL` are nonzero and differ from each other, so none
of these failures returns 0. -/
theorem testEncrypt_status_codes (agent : KeyAgent) (a : Args) :
    (NullOrEmpty a → (testEncrypt agent a).status = some E_INVALID_ARG)
      ∧ (¬ NullOrEmpty a →
          ((agent.Invoke keyRequest).error ≠ "" ∨ (operateResponse agent a).error ≠ "") →
          (testEncrypt agent a).status = some E_FAIL)
      ∧ (¬ NullOrEmpty a → (agent.Invoke keyRequest).error = "" →
          (operateResponse agent a).error = "" → capacityCheck agent a →
          copyStatus agent a ≠ 0 → (testEncrypt agent a).status = some E_FAIL)
      ∧ E_INVALID_ARG ≠ 0 ∧ E_FAIL ≠ 0 ∧ E_INVALID_ARG ≠ E_FAIL := by
  refine ⟨?_, ?_, ?_, by decide, by decide, by decide⟩
  · intro hn
    have hi : invalidArgs a = true := (invalidArgs_iff a).2 hn
    simp [testEncrypt, hi]
  · intro hv herr
    have hi := invalidArgs_false_of_valid hv
    by_cases hk : (agent.Invoke keyRequest).error.length > 0
    · simp [testEncrypt, hi, hk]
    · have hk2 : (agent.Invoke keyRequest).error = "" := by
        by_contra hc
        exact hk ((length_pos_iff_ne_empty _).2 hc)
      have ho : (agent.Operate (request a (agent.Invoke keyRequest))).error.length > 0 := by
        rcases herr with h1 | h2
        · exact absurd hk2 h1
        · exact (length_pos_iff_ne_empty _).2 h2
      simp [testEncrypt, hi, hk, ho]
  · intro hv hk ho hc hm
    have hi := invalidArgs_false_of_valid hv
    have hm1 : ¬ (0 = copyStatus agent a) := fun e => hm e.symm
    unfold capacityCheck operateResponse at hc
    unfold copyStatus operateResponse at hm1
    unfold operateResponse at ho
    simp [testEncrypt, hi, hk, ho, hc, hm1]

theorem testEncrypt_status_codes_witness :
    (testEncrypt (stubAgent stubBytes) (sampleArgs none 8)).status = some E_FAIL
      ∧ (testEncrypt operateErrorAgent (sampleArgs none 8)).status = some E_FAIL
      ∧ (testEncrypt operateErrorAgent { sampleArgs none 8 with cv := none }).status
          = some E_INVALID_ARG :=
  ⟨(testEncrypt_status_codes (stubAgent stubBytes) (sampleArgs none 8)).2.2.1
      (by simp [NullOrEmpty, sampleArgs]) (by decide) (by decide) (by decide) (by decide),
    (testEncrypt_status_codes operateErrorAgent (sampleArgs none 8)).2.1
      (by simp [NullOrEmpty, sampleArgs]) (Or.inr (by decide)),
    (testEncrypt_status_codes operateErrorAgent { sampleArgs none 8 with cv := none }).1
      (by simp [NullOrEmpty])⟩

end NewWrapper
